import Mathlib

/-!
Shallow embedding of the TLS 1.3 client in `src/tls.py`.

Byte strings are modelled as `List Nat` (one `Nat` per byte).  Python
exceptions are modelled with an `Err` type: `assert cond, msg` becomes
`Err.assertError msg`, `raise Exception(msg)` becomes `Err.exc msg`, and
`raise Alert(level, description)` becomes `Err.alertExc level description`.
The external `ciphers` package (AEAD, HKDF schedule, HMAC) is modelled as an
abstract `Crypto` record of functions, quantified over in the theorems.
-/

set_option maxRecDepth 16384

namespace TLS13

abbrev Bytes := List Nat

/-- Big-endian interpretation of a byte string, as in `int.from_bytes(mv, "big")`. -/
def natFromBytes (l : Bytes) : Nat := l.foldl (fun a b => a * 256 + b) 0

/-- Big-endian encoding of `n` on `w` bytes, as in `n.to_bytes(w, "big")`. -/
def toBytesBE : Nat → Nat → Bytes
  | 0, _ => []
  | w + 1, n => toBytesBE w (n / 256) ++ [n % 256]

/-- `pack_int(length, data) = len(data).to_bytes(length) + data` (tls.py line 439). -/
def pack_int (length : Nat) (data : Bytes) : Bytes :=
  toBytesBE length data.length ++ data

/-- `pack_list(length, iterable)` joins the items and length-prefixes them (tls.py line 443). -/
def pack_list (length : Nat) (items : List Bytes) : Bytes :=
  pack_int length items.flatten

/-- Python exceptions raised by tls.py. -/
inductive Err where
  | assertError (msg : String)
  | exc (msg : String)
  | alertExc (level : Nat) (description : Nat)
deriving DecidableEq

/-- `HandshakeType` enum (tls.py line 36). -/
inductive HandshakeType where
  | client_hello
  | server_hello
  | new_session_ticket
  | end_of_early_data
  | encrypted_extensions
  | certificate
  | certificate_request
  | certificate_verify
  | finished
  | key_update
  | message_hash
deriving DecidableEq

def HandshakeType.val : HandshakeType → Nat
  | .client_hello => 1
  | .server_hello => 2
  | .new_session_ticket => 4
  | .end_of_early_data => 5
  | .encrypted_extensions => 8
  | .certificate => 11
  | .certificate_request => 13
  | .certificate_verify => 15
  | .finished => 20
  | .key_update => 24
  | .message_hash => 254

def HandshakeType.pack (h : HandshakeType) : Bytes := [h.val]

/-- `HandshakeType.pack_data`: 1-byte type plus 3-byte length-prefixed body (tls.py line 49). -/
def HandshakeType.pack_data (h : HandshakeType) (data : Bytes) : Bytes :=
  h.pack ++ pack_int 3 data

/-- `ContentType` enum (tls.py line 172). -/
inductive ContentType where
  | invalid
  | change_cipher_spec
  | alert
  | handshake
  | application_data
deriving DecidableEq

def ContentType.val : ContentType → Nat
  | .invalid => 0
  | .change_cipher_spec => 20
  | .alert => 21
  | .handshake => 22
  | .application_data => 23

def ContentType.pack (c : ContentType) : Bytes := [c.val]

/-- `ContentType.from_value` (via `MyIntEnum.from_value`, tls.py line 19). -/
def ContentType.fromValue : Nat → Option ContentType
  | 0 => some .invalid
  | 20 => some .change_cipher_spec
  | 21 => some .alert
  | 22 => some .handshake
  | 23 => some .application_data
  | _ => none

/-- `HandshakeType.tls_inner_plaintext` (tls.py line 52); the number of zero
padding bytes is `random.randint(0, 10)`, modelled as the parameter `pad`. -/
def HandshakeType.tls_inner_plaintext (h : HandshakeType) (content : Bytes) (pad : Nat) : Bytes :=
  h.pack_data content ++ ContentType.pack .handshake ++ List.replicate pad 0

/-- `ContentType.tls_inner_plaintext` (tls.py line 204); `pad` models `random.randint(0, 10)`. -/
def ContentType.tls_inner_plaintext (c : ContentType) (content : Bytes) (pad : Nat) : Bytes :=
  content ++ c.pack ++ List.replicate pad 0

/-- `AlertLevel` enum (tls.py line 208). -/
inductive AlertLevel where
  | warning
  | fatal
deriving DecidableEq

def AlertLevel.val : AlertLevel → Nat
  | .warning => 1
  | .fatal => 2

def AlertLevel.fromValue : Nat → Option AlertLevel
  | 1 => some .warning
  | 2 => some .fatal
  | _ => none

/-- `AlertDescription` enum (tls.py line 213). -/
inductive AlertDescription where
  | close_notify
  | unexpected_message
  | bad_record_mac
  | record_overflow
  | handshake_failure
  | bad_certificate
  | unsupported_certificate
  | certificate_revoked
  | certificate_expired
  | certificate_unknown
  | illegal_parameter
  | unknown_ca
  | access_denied
  | decode_error
  | decrypt_error
  | protocol_version
  | insufficient_security
  | internal_error
  | inappropriate_fallback
  | user_canceled
  | missing_extension
  | unsupported_extension
  | unrecognized_name
  | bad_certificate_status_response
  | unknown_psk_identity
  | certificate_required
  | no_application_protocol
deriving DecidableEq

def AlertDescription.val : AlertDescription → Nat
  | .close_notify => 0
  | .unexpected_message => 10
  | .bad_record_mac => 20
  | .record_overflow => 22
  | .handshake_failure => 40
  | .bad_certificate => 42
  | .unsupported_certificate => 43
  | .certificate_revoked => 44
  | .certificate_expired => 45
  | .certificate_unknown => 46
  | .illegal_parameter => 47
  | .unknown_ca => 48
  | .access_denied => 49
  | .decode_error => 50
  | .decrypt_error => 51
  | .protocol_version => 70
  | .insufficient_security => 71
  | .internal_error => 80
  | .inappropriate_fallback => 86
  | .user_canceled => 90
  | .missing_extension => 109
  | .unsupported_extension => 110
  | .unrecognized_name => 112
  | .bad_certificate_status_response => 113
  | .unknown_psk_identity => 115
  | .certificate_required => 116
  | .no_application_protocol => 120

def AlertDescription.fromValue : Nat → Option AlertDescription
  | 0 => some .close_notify
  | 10 => some .unexpected_message
  | 20 => some .bad_record_mac
  | 22 => some .record_overflow
  | 40 => some .handshake_failure
  | 42 => some .bad_certificate
  | 43 => some .unsupported_certificate
  | 44 => some .certificate_revoked
  | 45 => some .certificate_expired
  | 46 => some .certificate_unknown
  | 47 => some .illegal_parameter
  | 48 => some .unknown_ca
  | 49 => some .access_denied
  | 50 => some .decode_error
  | 51 => some .decrypt_error
  | 70 => some .protocol_version
  | 71 => some .insufficient_security
  | 80 => some .internal_error
  | 86 => some .inappropriate_fallback
  | 90 => some .user_canceled
  | 109 => some .missing_extension
  | 110 => some .unsupported_extension
  | 112 => some .unrecognized_name
  | 113 => some .bad_certificate_status_response
  | 115 => some .unknown_psk_identity
  | 116 => some .certificate_required
  | 120 => some .no_application_protocol
  | _ => none

/-- `SignatureScheme` enum (tls.py line 243). -/
inductive SignatureScheme where
  | rsa_pkcs1_sha256
  | rsa_pkcs1_sha384
  | rsa_pkcs1_sha512
  | ecdsa_secp256r1_sha256
  | ecdsa_secp384r1_sha384
  | ecdsa_secp521r1_sha512
  | rsa_pss_rsae_sha256
  | rsa_pss_rsae_sha384
  | rsa_pss_rsae_sha512
  | ed25519
  | ed448
  | rsa_pss_pss_sha256
  | rsa_pss_pss_sha384
  | rsa_pss_pss_sha512
  | rsa_pkcs1_sha1
  | ecdsa_sha1
deriving DecidableEq

def SignatureScheme.val : SignatureScheme → Nat
  | .rsa_pkcs1_sha256 => 0x0401
  | .rsa_pkcs1_sha384 => 0x0501
  | .rsa_pkcs1_sha512 => 0x0601
  | .ecdsa_secp256r1_sha256 => 0x0403
  | .ecdsa_secp384r1_sha384 => 0x0503
  | .ecdsa_secp521r1_sha512 => 0x0603
  | .rsa_pss_rsae_sha256 => 0x0804
  | .rsa_pss_rsae_sha384 => 0x0805
  | .rsa_pss_rsae_sha512 => 0x0806
  | .ed25519 => 0x0807
  | .ed448 => 0x0808
  | .rsa_pss_pss_sha256 => 0x0809
  | .rsa_pss_pss_sha384 => 0x080a
  | .rsa_pss_pss_sha512 => 0x080b
  | .rsa_pkcs1_sha1 => 0x0201
  | .ecdsa_sha1 => 0x0203

def SignatureScheme.pack (s : SignatureScheme) : Bytes := toBytesBE 2 s.val

def SignatureScheme.fromValue : Nat → Option SignatureScheme
  | 0x0401 => some .rsa_pkcs1_sha256
  | 0x0501 => some .rsa_pkcs1_sha384
  | 0x0601 => some .rsa_pkcs1_sha512
  | 0x0403 => some .ecdsa_secp256r1_sha256
  | 0x0503 => some .ecdsa_secp384r1_sha384
  | 0x0603 => some .ecdsa_secp521r1_sha512
  | 0x0804 => some .rsa_pss_rsae_sha256
  | 0x0805 => some .rsa_pss_rsae_sha384
  | 0x0806 => some .rsa_pss_rsae_sha512
  | 0x0807 => some .ed25519
  | 0x0808 => some .ed448
  | 0x0809 => some .rsa_pss_pss_sha256
  | 0x080a => some .rsa_pss_pss_sha384
  | 0x080b => some .rsa_pss_pss_sha512
  | 0x0201 => some .rsa_pkcs1_sha1
  | 0x0203 => some .ecdsa_sha1
  | _ => none

/-- All members of `SignatureScheme` in declaration order (Python `for e in cls`). -/
def SignatureScheme.allMembers : List SignatureScheme :=
  [.rsa_pkcs1_sha256, .rsa_pkcs1_sha384, .rsa_pkcs1_sha512,
   .ecdsa_secp256r1_sha256, .ecdsa_secp384r1_sha384, .ecdsa_secp521r1_sha512,
   .rsa_pss_rsae_sha256, .rsa_pss_rsae_sha384, .rsa_pss_rsae_sha512,
   .ed25519, .ed448,
   .rsa_pss_pss_sha256, .rsa_pss_pss_sha384, .rsa_pss_pss_sha512,
   .rsa_pkcs1_sha1, .ecdsa_sha1]

/-- `NamedGroup` enum (tls.py line 279). -/
inductive NamedGroup where
  | secp256r1
  | secp384r1
  | secp521r1
  | x25519
  | x448
  | ffdhe2048
  | ffdhe3072
  | ffdhe4096
  | ffdhe6144
  | ffdhe8192
deriving DecidableEq

def NamedGroup.val : NamedGroup → Nat
  | .secp256r1 => 0x0017
  | .secp384r1 => 0x0018
  | .secp521r1 => 0x0019
  | .x25519 => 0x001D
  | .x448 => 0x001E
  | .ffdhe2048 => 0x0100
  | .ffdhe3072 => 0x0101
  | .ffdhe4096 => 0x0102
  | .ffdhe6144 => 0x0103
  | .ffdhe8192 => 0x0104

def NamedGroup.pack (g : NamedGroup) : Bytes := toBytesBE 2 g.val

def NamedGroup.fromValue : Nat → Option NamedGroup
  | 0x0017 => some .secp256r1
  | 0x0018 => some .secp384r1
  | 0x0019 => some .secp521r1
  | 0x001D => some .x25519
  | 0x001E => some .x448
  | 0x0100 => some .ffdhe2048
  | 0x0101 => some .ffdhe3072
  | 0x0102 => some .ffdhe4096
  | 0x0103 => some .ffdhe6144
  | 0x0104 => some .ffdhe8192
  | _ => none

/-- `KeyShareEntry` (tls.py line 320). -/
structure KeyShareEntry where
  group : NamedGroup
  key_exchange : Bytes
deriving DecidableEq

/-- `NamedGroup.unpack_from` (tls.py line 310). -/
def NamedGroup.unpack_from (data : Bytes) : Except Err KeyShareEntry :=
  let value := natFromBytes (data.take 2)
  match NamedGroup.fromValue value with
  | none => .error (.exc "Known NamedGroup type")
  | some g =>
    let length := natFromBytes ((data.drop 2).take 2)
    if length = (data.drop 4).length then .ok ⟨g, data.drop 4⟩
    else .error (.assertError "group length does not match")

/-- `CertificateType` enum (tls.py line 334). -/
inductive CertificateType where
  | X509
  | RawPublicKey
deriving DecidableEq

def CertificateType.fromValue : Nat → Option CertificateType
  | 0 => some .X509
  | 2 => some .RawPublicKey
  | _ => none

/-- `CipherSuite` enum (tls.py line 383). -/
inductive CipherSuite where
  | TLS_AES_128_GCM_SHA256
  | TLS_AES_256_GCM_SHA384
  | TLS_CHACHA20_POLY1305_SHA256
  | TLS_AES_128_CCM_SHA256
  | TLS_AES_128_CCM_8_SHA256
deriving DecidableEq

def CipherSuite.val : CipherSuite → Nat
  | .TLS_AES_128_GCM_SHA256 => 0x1301
  | .TLS_AES_256_GCM_SHA384 => 0x1302
  | .TLS_CHACHA20_POLY1305_SHA256 => 0x1303
  | .TLS_AES_128_CCM_SHA256 => 0x1304
  | .TLS_AES_128_CCM_8_SHA256 => 0x1305

def CipherSuite.pack (s : CipherSuite) : Bytes := toBytesBE 2 s.val

/-- `CipherSuite.get_cipher` (tls.py line 403): maps the 2-byte wire value to the
cipher implementation; the implementation is identified here by the suite. -/
def CipherSuite.get_cipher (data : Bytes) : Except Err CipherSuite :=
  let value := natFromBytes data
  if value = 0x1301 then .ok .TLS_AES_128_GCM_SHA256
  else if value = 0x1302 then .ok .TLS_AES_256_GCM_SHA384
  else if value = 0x1304 then .ok .TLS_AES_128_CCM_SHA256
  else if value = 0x1305 then .ok .TLS_AES_128_CCM_8_SHA256
  else if value = 0x1303 then .ok .TLS_CHACHA20_POLY1305_SHA256
  else .error (.exc "bad cipher suite")

/-- `CipherSuite.pack_all` (tls.py line 419): a 2-byte length-prefixed vector of
the four suites listed there, in source order. -/
def CipherSuite.pack_all : Bytes :=
  pack_int 2
    (([CipherSuite.TLS_AES_128_GCM_SHA256,
       CipherSuite.TLS_AES_256_GCM_SHA384,
       CipherSuite.TLS_AES_128_CCM_SHA256,
       CipherSuite.TLS_CHACHA20_POLY1305_SHA256].map CipherSuite.pack).flatten)

/-- `ExtensionType` enum (tls.py line 87). -/
inductive ExtensionType where
  | server_name
  | max_fragment_length
  | status_request
  | supported_groups
  | signature_algorithms
  | use_srtp
  | heartbeat
  | application_layer_protocol_negotiation
  | signed_certificate_timestamp
  | client_certificate_type
  | server_certificate_type
  | padding
  | pre_shared_key
  | early_data
  | supported_versions
  | cookie
  | psk_key_exchange_modes
  | certificate_authorities
  | oid_filters
  | post_handshake_auth
  | signature_algorithms_cert
  | key_share
deriving DecidableEq

def ExtensionType.val : ExtensionType → Nat
  | .server_name => 0
  | .max_fragment_length => 1
  | .status_request => 5
  | .supported_groups => 10
  | .signature_algorithms => 13
  | .use_srtp => 14
  | .heartbeat => 15
  | .application_layer_protocol_negotiation => 16
  | .signed_certificate_timestamp => 18
  | .client_certificate_type => 19
  | .server_certificate_type => 20
  | .padding => 21
  | .pre_shared_key => 41
  | .early_data => 42
  | .supported_versions => 43
  | .cookie => 44
  | .psk_key_exchange_modes => 45
  | .certificate_authorities => 47
  | .oid_filters => 48
  | .post_handshake_auth => 49
  | .signature_algorithms_cert => 50
  | .key_share => 51

def ExtensionType.pack (e : ExtensionType) : Bytes := toBytesBE 2 e.val

def ExtensionType.fromValue : Nat → Option ExtensionType
  | 0 => some .server_name
  | 1 => some .max_fragment_length
  | 5 => some .status_request
  | 10 => some .supported_groups
  | 13 => some .signature_algorithms
  | 14 => some .use_srtp
  | 15 => some .heartbeat
  | 16 => some .application_layer_protocol_negotiation
  | 18 => some .signed_certificate_timestamp
  | 19 => some .client_certificate_type
  | 20 => some .server_certificate_type
  | 21 => some .padding
  | 41 => some .pre_shared_key
  | 42 => some .early_data
  | 43 => some .supported_versions
  | 44 => some .cookie
  | 45 => some .psk_key_exchange_modes
  | 47 => some .certificate_authorities
  | 48 => some .oid_filters
  | 49 => some .post_handshake_auth
  | 50 => some .signature_algorithms_cert
  | 51 => some .key_share
  | _ => none

/-- `ExtensionType.pack_data`: 2-byte type plus 2-byte length-prefixed body (tls.py line 111). -/
def ExtensionType.pack_data (e : ExtensionType) (data : Bytes) : Bytes :=
  e.pack ++ pack_int 2 data

/-- Decoded value of one extension, as produced by `ExtensionType.unpack` (tls.py line 162). -/
inductive ExtValue where
  | raw (data : Bytes)
  | keyShare (entry : KeyShareEntry)
  | hostName (data : Bytes)
deriving DecidableEq

/-- `ExtensionType.unpack` (tls.py line 162): `supported_versions` keeps the raw
bytes, `key_share` decodes a `KeyShareEntry`, `server_name` decodes the UTF-8
name (kept as bytes here), everything else raises. -/
def ExtensionType.unpack (e : ExtensionType) (data : Bytes) : Except Err ExtValue :=
  if e = .supported_versions then .ok (.raw data)
  else if e = .key_share then
    match NamedGroup.unpack_from data with
    | .error err => .error err
    | .ok entry => .ok (.keyShare entry)
  else if e = .server_name then .ok (.hostName data)
  else .error (.exc "not support yet")

/-- Python dict update `extensions[et] = v`. -/
def insertExt (m : List (ExtensionType × ExtValue)) (k : ExtensionType) (v : ExtValue) :
    List (ExtensionType × ExtValue) :=
  if m.any (fun p => p.1 = k) then m.map (fun p => if p.1 = k then (k, v) else p)
  else m ++ [(k, v)]

/-- Python dict lookup `extensions[et]`. -/
def getExt (m : List (ExtensionType × ExtValue)) (k : ExtensionType) : Option ExtValue :=
  (m.find? (fun p => p.1 = k)).map (fun p => p.2)

/-- Loop body of `ExtensionType.unpack_from` (tls.py line 142).  The `fuel`
argument bounds the number of iterations; every iteration consumes at least two
input bytes, so `fuel = mv.length` always suffices and the out-of-fuel branch
is unreachable from `ExtensionType.unpack_from`. -/
def unpackFromAux : Nat → List (ExtensionType × ExtValue) → Bytes →
    Except Err (List (ExtensionType × ExtValue))
  | _, acc, [] => .ok acc
  | 0, _, _ :: _ => .error (.exc "out of fuel")
  | fuel + 1, acc, b :: bs =>
    let mv := b :: bs
    let value := natFromBytes (mv.take 2)
    let mv1 := mv.drop 2
    if mv1 = [] then
      match ExtensionType.fromValue value with
      | none => .error (.exc "Known ExtensionType type")
      | some et =>
        match ExtensionType.unpack et [] with
        | .error e => .error e
        | .ok v => .ok (insertExt acc et v)
    else
      let len := natFromBytes (mv1.take 2)
      let extension_data := (mv1.drop 2).take len
      if extension_data.length = len then
        match ExtensionType.fromValue value with
        | none => .error (.exc "Known ExtensionType type")
        | some et =>
          match ExtensionType.unpack et extension_data with
          | .error e => .error e
          | .ok v => unpackFromAux fuel (insertExt acc et v) (mv1.drop (len + 2))
      else .error (.assertError "extension length does not match")

/-- `ExtensionType.unpack_from` (tls.py line 142). -/
def ExtensionType.unpack_from (mv : Bytes) : Except Err (List (ExtensionType × ExtValue)) :=
  unpackFromAux mv.length [] mv

/-- `unpack_certificate_verify` result (tls.py line 60). -/
structure CertVerify where
  algorithm : SignatureScheme
  sig_bytes : Bytes
deriving DecidableEq

/-- `unpack_certificate_verify` (tls.py line 60). -/
def unpack_certificate_verify (mv : Bytes) : Except Err CertVerify :=
  let algorithm := natFromBytes (mv.take 2)
  match SignatureScheme.fromValue algorithm with
  | none => .error (.exc "Known SignatureScheme type")
  | some scheme =>
    let signature_len := natFromBytes ((mv.drop 2).take 2)
    .ok ⟨scheme, (mv.drop 4).take signature_len⟩

/-- `unpack_new_session_ticket` result (tls.py line 68). -/
structure SessionTicket where
  lifetime : Nat
  age_add : Nat
  nonce : Bytes
  ticket : Bytes
  extensions : List (ExtensionType × ExtValue)
deriving DecidableEq

/-- `unpack_new_session_ticket` (tls.py line 68).  `struct.unpack_from("!IIB", mv)`
needs at least 9 bytes and raises `struct.error` otherwise. -/
def unpack_new_session_ticket (mv : Bytes) : Except Err SessionTicket :=
  if mv.length < 9 then .error (.exc "struct.error")
  else
    let lifetime := natFromBytes (mv.take 4)
    let age_add := natFromBytes ((mv.drop 4).take 4)
    let nonce_len := natFromBytes ((mv.drop 8).take 1)
    let mv1 := mv.drop 9
    let nonce := mv1.take nonce_len
    let mv2 := mv1.drop nonce_len
    let ticket_len := natFromBytes (mv2.take 2)
    let mv3 := mv2.drop 2
    let ticket := mv3.take ticket_len
    let mv4 := mv3.drop ticket_len
    match ExtensionType.unpack_from mv4 with
    | .error e => .error e
    | .ok exts => .ok ⟨lifetime, age_add, nonce, ticket, exts⟩

/-- `CertificateEntry` (tls.py line 339). -/
structure CertificateEntry where
  cert_type : CertificateType
  cert_data : Bytes
  extensions : Bytes
deriving DecidableEq

/-- `CertificateEntry.unpack_from` (tls.py line 350). -/
def CertificateEntry.unpack_from (data : Bytes) : Except Err CertificateEntry :=
  match data with
  | [] => .error (.exc "IndexError")
  | c0 :: _ =>
    let data1 := data.drop (1 + c0)
    let certificate_list_len := natFromBytes (data1.take 3)
    let certificate_list := (data1.drop 3).take certificate_list_len
    if (data1.drop (3 + certificate_list_len)).length = 0 then
      match certificate_list with
      | [] => .error (.exc "IndexError")
      | t0 :: _ =>
        match CertificateType.fromValue t0 with
        | none => .error (.exc "Known CertificateType type")
        | some ct =>
          let cert_data_len := natFromBytes ((certificate_list.drop 1).take 3)
          let cert_data := (certificate_list.drop 4).take cert_data_len
          let extensions_data := certificate_list.drop (4 + cert_data_len)
          let extensions_len := natFromBytes (extensions_data.take 2)
          let extensions := (extensions_data.drop 2).take extensions_len
          if (extensions_data.drop (2 + extensions_len)).length = 0 then
            .ok ⟨ct, cert_data, extensions⟩
          else .error (.assertError "extensions length does not match")
    else .error (.assertError "Certificate length does not match")

/-- Record fragmentation loop of `ContentType.tls_plaintext` (tls.py line 182):
successive chunks of at most `2 ^ 14 = 16384` bytes. -/
def fragments (data : Bytes) : List Bytes :=
  if data.length > 16384 then data.take 16384 :: fragments (data.drop 16384) else [data]
termination_by data.length
decreasing_by simp; omega

/-- Join of `ContentType.tls_plaintext`'s generator expression (tls.py line 191):
the `i`-th record is `type || version || pack_int(2, fragment)`, where the
version is `0x0301` for the first handshake record and `0x0303` otherwise. -/
def packRecords (ct : ContentType) : Nat → List Bytes → Bytes
  | _, [] => []
  | i, f :: fs =>
    ct.pack ++ (if i = 0 ∧ ct = ContentType.handshake then [3, 1] else [3, 3]) ++
      pack_int 2 f ++ packRecords ct (i + 1) fs

/-- `ContentType.tls_plaintext` (tls.py line 179).  The source asserts that
`data` is nonempty; the theorems about it carry that hypothesis. -/
def ContentType.tls_plaintext (ct : ContentType) (data : Bytes) : Bytes :=
  packRecords ct 0 (fragments data)

/-- Python `bytes.rstrip(b"\x00")`: drop all trailing zero bytes. -/
def rstripZeros (l : Bytes) : Bytes :=
  (l.reverse.dropWhile (fun b => b == 0)).reverse

/-- Receive-side recovery of an inner plaintext (tls.py lines 626 and 627):
strip trailing zeros, interpret the last byte as the content type and the rest
as the content. -/
def recoverInner (l : Bytes) : Except Err (Bytes × ContentType) :=
  let s := rstripZeros l
  match s.getLast? with
  | none => .error (.exc "IndexError")
  | some b =>
    match ContentType.fromValue b with
    | none => .error (.exc "Known ContentType type")
    | some ct => .ok (s.dropLast, ct)

/-- `NameType.host_name.pack_data` (tls.py line 435). -/
def NameType.host_name_pack_data (data : Bytes) : Bytes :=
  [0] ++ pack_int 2 data

/-- `ExtensionType.server_name_list` for a single host name (tls.py line 115). -/
def ExtensionType.server_name_list (host_name : Bytes) : Bytes :=
  ExtensionType.pack_data .server_name
    (pack_list 2 [NameType.host_name_pack_data host_name])

/-- `ExtensionType.supported_versions_list` (tls.py line 127). -/
def ExtensionType.supported_versions_list : Bytes :=
  ExtensionType.pack_data .supported_versions (pack_int 1 [3, 4])

/-- `Const.all_signature_algorithms` (tls.py line 452). -/
def Const.all_signature_algorithms : Bytes :=
  ExtensionType.pack_data .signature_algorithms
    (pack_int 2 ((SignatureScheme.allMembers.map SignatureScheme.pack).flatten))

/-- `Const.all_supported_groups` (tls.py line 455). -/
def Const.all_supported_groups : Bytes :=
  ExtensionType.pack_data .supported_groups
    (pack_int 2 (NamedGroup.pack .x25519))

/-- `key_share_client_hello_pack` for a single entry (tls.py line 508). -/
def key_share_client_hello_pack (key_share_entry : Bytes) : Bytes :=
  ExtensionType.pack_data .key_share (pack_list 2 [key_share_entry])

/-- `client_hello_pack` with the default arguments taken by `TLSClient.__init__`
(tls.py line 460): `compatibility_mode=True` makes `legacy_session_id` the
32 random bytes passed as `legacy_session_id`, `cipher_suites=None` selects
`CipherSuite.pack_all()`, and `retry=False` uses the 32 random bytes `rand`. -/
def client_hello_pack (extensions : List Bytes) (legacy_session_id rand : Bytes) : Bytes :=
  let cipher_suites := CipherSuite.pack_all
  let msg :=
    [3, 3] ++ rand ++ pack_int 1 legacy_session_id ++ cipher_suites ++ [1, 0] ++
      pack_list 2 extensions
  HandshakeType.pack_data .client_hello msg

/-- The `peer_handshake` value returned by `unpack_server_hello` (tls.py line 554). -/
structure ServerHello where
  handshake_type : HandshakeType
  random : Bytes
  legacy_session_id_echo : Bytes
  cipher_suite : CipherSuite
  extensions : List (ExtensionType × ExtValue)
deriving DecidableEq

/-- A `TLSCipher(secret)` instance: the negotiated suite plus the traffic secret
it was constructed from. -/
structure Cipher where
  suite : CipherSuite
  secret : Bytes
deriving DecidableEq

/-- Interface of the external `ciphers` package and `nacl` primitives: HMAC
verify_data, AEAD seal/open, X25519, and the HKDF key schedule (parameterised
by the negotiated suite's hash and keyed by the ECDHE shared key). -/
structure Crypto where
  verify_data : Cipher → Bytes → Bytes
  tls_ciphertext : Cipher → Bytes → Bytes
  decrypt : Cipher → Bytes → Bytes → Bytes
  scalarmult : Bytes → Bytes → Bytes
  server_handshake_traffic_secret : CipherSuite → Bytes → Bytes → Bytes
  client_handshake_traffic_secret : CipherSuite → Bytes → Bytes → Bytes
  server_application_traffic_secret_0 : CipherSuite → Bytes → Bytes → Bytes
  client_application_traffic_secret_0 : CipherSuite → Bytes → Bytes → Bytes

/-- Mutable state of a `TLSClient` (tls.py line 524), together with the
`tls_response` generator locals that survive across loop iterations
(`key_scheduler`, i.e. the suite and ECDHE shared key, and
`client_handshake_traffic_secret`). -/
structure ClientState where
  private_key : Bytes
  client_hello_data : Bytes
  handshake_context : List Bytes
  server_finished : Bool
  peer_cipher : Option Cipher
  cipher : Option Cipher
  encrypted_extensions : Option (List (ExtensionType × ExtValue))
  certificate_entry : Option CertificateEntry
  certificate_verify : Option CertVerify
  session_ticket : Option SessionTicket
  peer_handshake : Option ServerHello
  key_scheduler : Option (CipherSuite × Bytes)
  client_hs_secret : Option Bytes
deriving DecidableEq

/-- `TLSClient.__init__` (tls.py line 525): `key_share_entry` is the packed
x25519 share from `NamedGroup.new_x25519`, `sid` the 32 random session-id bytes
and `rand` the 32 random hello bytes. -/
def TLSClient.init (private_key key_share_entry sid rand : Bytes) : ClientState :=
  let chd := client_hello_pack
    [ExtensionType.server_name_list [49, 50, 55, 46, 48, 46, 48, 46, 49],
     ExtensionType.supported_versions_list,
     Const.all_signature_algorithms,
     Const.all_supported_groups,
     key_share_client_hello_pack key_share_entry] sid rand
  { private_key := private_key
    client_hello_data := chd
    handshake_context := [chd]
    server_finished := false
    peer_cipher := none
    cipher := none
    encrypted_extensions := none
    certificate_entry := none
    certificate_verify := none
    session_ticket := none
    peer_handshake := none
    key_scheduler := none
    client_hs_secret := none }

/-- `TLSClient.get_context` (tls.py line 593). -/
def get_context (st : ClientState) : Bytes := st.handshake_context.flatten

/-- `TLSClient.unpack_server_hello` (tls.py line 540). -/
def unpack_server_hello (mv : Bytes) : Except Err ServerHello :=
  if mv.take 2 = [3, 3] then
    let random := (mv.drop 2).take 32
    match (mv.drop 34).head? with
    | none => .error (.exc "IndexError")
    | some echo_len =>
      let legacy_session_id_echo := (mv.drop 35).take echo_len
      let mv1 := mv.drop (35 + echo_len)
      match CipherSuite.get_cipher (mv1.take 2) with
      | .error e => .error e
      | .ok cipher_suite =>
        match (mv1.drop 2).head? with
        | none => .error (.exc "IndexError")
        | some comp =>
          if comp = 0 then
            let extension_length := natFromBytes ((mv1.drop 3).take 2)
            let extensions_mv := mv1.drop 5
            if extensions_mv.length = extension_length then
              match ExtensionType.unpack_from extensions_mv with
              | .error e => .error e
              | .ok exts =>
                .ok ⟨.server_hello, random, legacy_session_id_echo, cipher_suite, exts⟩
            else .error (.assertError "extensions length does not match")
          else .error (.assertError "legacy_compression_method should be 0")
  else .error (.assertError "version must be 0x0303")

/-- `TLSClient.unpack_handshake` (tls.py line 562).  A raised exception carries
the state as mutated up to the raise point, since Python exceptions do not roll
back assignments already performed. -/
def unpack_handshake (crypto : Crypto) (st : ClientState) (mv : Bytes) :
    Except (Err × ClientState) (ClientState × Option ServerHello) :=
  match mv.head? with
  | none => .error (.exc "IndexError", st)
  | some handshake_type =>
    let length := natFromBytes ((mv.drop 1).take 3)
    let handshake_data := mv.drop 4
    if handshake_data.length = length then
      if handshake_type = HandshakeType.val .server_hello then
        let st1 := { st with handshake_context := st.handshake_context ++ [mv] }
        match unpack_server_hello handshake_data with
        | .error e => .error (e, st1)
        | .ok sh => .ok (st1, some sh)
      else if handshake_type = HandshakeType.val .encrypted_extensions then
        let st1 := { st with handshake_context := st.handshake_context ++ [mv] }
        match ExtensionType.unpack_from handshake_data with
        | .error e => .error (e, st1)
        | .ok exts => .ok ({ st1 with encrypted_extensions := some exts }, none)
      else if handshake_type = HandshakeType.val .certificate_request then
        .ok ({ st with handshake_context := st.handshake_context ++ [mv] }, none)
      else if handshake_type = HandshakeType.val .certificate then
        let st1 := { st with handshake_context := st.handshake_context ++ [mv] }
        match CertificateEntry.unpack_from handshake_data with
        | .error e => .error (e, st1)
        | .ok entry => .ok ({ st1 with certificate_entry := some entry }, none)
      else if handshake_type = HandshakeType.val .certificate_verify then
        let st1 := { st with handshake_context := st.handshake_context ++ [mv] }
        match unpack_certificate_verify handshake_data with
        | .error e => .error (e, st1)
        | .ok cv => .ok ({ st1 with certificate_verify := some cv }, none)
      else if handshake_type = HandshakeType.val .finished then
        match st.peer_cipher with
        | none => .error (.exc "AttributeError", st)
        | some pc =>
          let context := st.handshake_context.flatten
          if handshake_data = crypto.verify_data pc context then
            .ok ({ st with handshake_context := st.handshake_context ++ [mv],
                           server_finished := true }, none)
          else .error (.assertError "server handshake finished does not match", st)
      else if handshake_type = HandshakeType.val .new_session_ticket then
        match unpack_new_session_ticket mv with
        | .error e => .error (e, st)
        | .ok t => .ok ({ st with session_ticket := some t }, none)
      else .error (.exc "unknown handshake type", st)
    else .error (.assertError "handshake length does not match", st)

/-- One iteration of the `TLSClient.tls_response` loop (tls.py line 596) on a
record with 5-byte header `head` and body `content`; returns the bytes the
iteration writes.  `pad` models the `random.randint(0, 10)` padding used when
the client Finished is built. -/
def tls_response_step (crypto : Crypto) (pad : Nat) (st : ClientState)
    (head content : Bytes) : Except (Err × ClientState) (ClientState × Bytes) :=
  if (head.drop 1).take 2 = [3, 3] then
    match head.head? with
    | none => .error (.exc "IndexError", st)
    | some h0 =>
      if h0 = ContentType.val .alert then
        match content.head? with
        | none => .error (.exc "IndexError", st)
        | some l0 =>
          match AlertLevel.fromValue l0 with
          | none => .error (.exc "Known AlertLevel type", st)
          | some level =>
            match (content.drop 1).head? with
            | none => .error (.exc "IndexError", st)
            | some d0 =>
              match AlertDescription.fromValue d0 with
              | none => .error (.exc "Known AlertDescription type", st)
              | some de => .error (.alertExc level.val de.val, st)
      else if h0 = ContentType.val .handshake then
        match unpack_handshake crypto st content with
        | .error e => .error e
        | .ok (st1, osh) =>
          let st2 := { st1 with peer_handshake := osh }
          match osh with
          | none => .error (.exc "AttributeError", st2)
          | some sh =>
            if sh.handshake_type = HandshakeType.server_hello then
              match getExt sh.extensions .key_share with
              | none => .error (.exc "KeyError", st2)
              | some v =>
                match v with
                | .keyShare entry =>
                  let shared_key := crypto.scalarmult st.private_key entry.key_exchange
                  let suite := sh.cipher_suite
                  let context := get_context st2
                  let secret := crypto.server_handshake_traffic_secret suite shared_key context
                  let chs := crypto.client_handshake_traffic_secret suite shared_key context
                  .ok ({ st2 with peer_cipher := some ⟨suite, secret⟩,
                                  key_scheduler := some (suite, shared_key),
                                  client_hs_secret := some chs }, [])
                | _ => .error (.exc "AttributeError", st2)
            else .error (.assertError "expect server hello", st2)
      else if h0 = ContentType.val .application_data then
        match st.peer_cipher with
        | none => .error (.exc "AttributeError", st)
        | some pc =>
          let plaintext := rstripZeros (crypto.decrypt pc content head)
          match plaintext.getLast? with
          | none => .error (.exc "IndexError", st)
          | some last =>
            match ContentType.fromValue last with
            | none => .error (.exc "Known ContentType type", st)
            | some ct =>
              if ct = ContentType.handshake then
                match unpack_handshake crypto st plaintext.dropLast with
                | .error e => .error e
                | .ok (st1, _) =>
                  if st1.server_finished then
                    match st1.client_hs_secret, st1.key_scheduler with
                    | some chs, some (suite, shared_key) =>
                      let cipher : Cipher := ⟨suite, chs⟩
                      let context := st1.handshake_context.flatten
                      let client_finished := crypto.verify_data cipher context
                      let inner := HandshakeType.tls_inner_plaintext .finished client_finished pad
                      let record := crypto.tls_ciphertext cipher inner
                      let change_cipher_spec := ContentType.tls_plaintext .change_cipher_spec [1]
                      let server_secret :=
                        crypto.server_application_traffic_secret_0 suite shared_key context
                      let client_secret :=
                        crypto.client_application_traffic_secret_0 suite shared_key context
                      .ok ({ st1 with peer_cipher := some ⟨suite, server_secret⟩,
                                      server_finished := false,
                                      cipher := some ⟨suite, client_secret⟩ },
                           change_cipher_spec ++ record)
                    | _, _ => .error (.exc "NameError", st1)
                  else .ok (st1, [])
              else if ct = ContentType.application_data then
                .ok (st, plaintext.dropLast)
              else if ct = ContentType.alert then
                match plaintext.head? with
                | none => .error (.exc "IndexError", st)
                | some l0 =>
                  match AlertLevel.fromValue l0 with
                  | none => .error (.exc "Known AlertLevel type", st)
                  | some level =>
                    match (plaintext.drop 1).head? with
                    | none => .error (.exc "IndexError", st)
                    | some d0 =>
                      match AlertDescription.fromValue d0 with
                      | none => .error (.exc "Known AlertDescription type", st)
                      | some de => .error (.alertExc level.val de.val, st)
              else if ct = ContentType.invalid then
                .error (.exc "invalid content type", st)
              else .error (.exc "unexpected content type", st)
      else if h0 = ContentType.val .change_cipher_spec then
        if content = [1] then .ok (st, [])
        else .error (.assertError "change_cipher should be 0x01", st)
      else .error (.exc "Unknown content type", st)
  else .error (.assertError "bad legacy_record_version", st)

/-- Runs `tls_response_step` over a list of framed records, concatenating the
written bytes, as the `tls_response` loop does over the incoming stream. -/
def tls_response_run (crypto : Crypto) (pad : Nat) (st : ClientState) :
    List (Bytes × Bytes) → Except (Err × ClientState) (ClientState × Bytes)
  | [] => .ok (st, [])
  | (head, content) :: rest =>
    match tls_response_step crypto pad st head content with
    | .error e => .error e
    | .ok (st1, out) =>
      match tls_response_run crypto pad st1 rest with
      | .error e => .error e
      | .ok (st2, outs) => .ok (st2, out ++ outs)

/-- `TLSClient.pack_application_data` (tls.py line 671); `pad` models the random
zero padding of the inner plaintext. -/
def pack_application_data (crypto : Crypto) (st : ClientState) (payload : Bytes) (pad : Nat) :
    Except Err Bytes :=
  match st.cipher with
  | none => .error (.exc "AttributeError")
  | some c =>
    .ok (crypto.tls_ciphertext c (ContentType.tls_inner_plaintext .application_data payload pad))

/-- Grammar of the record layer, used to state framing theorems: parse a byte
stream into `(content_type, legacy_version, fragment)` triples, each record
being `type(1) || version(2) || length(2) || fragment`. -/
def parseRecords : Bytes → List (Nat × Bytes × Bytes)
  | t :: v1 :: v2 :: l1 :: l2 :: rest =>
    let len := l1 * 256 + l2
    (t, [v1, v2], rest.take len) :: parseRecords (rest.drop len)
  | _ => []
termination_by l => l.length
decreasing_by simp; omega

/-- Parse a cipher-suites vector body into its list of 2-byte wire values. -/
def parseSuites : Bytes → List Nat
  | a :: b :: rest => (a * 256 + b) :: parseSuites rest
  | _ => []

/-- Whether an error is a fatal `decrypt_error` (code 51) alert. -/
def Err.isDecryptError : Err → Bool
  | .alertExc 2 51 => true
  | _ => false

/-- Test-vector builder for a ServerHello handshake body: 32-byte `rand`, a
session-id echo, a cipher suite, and a single key_share extension carrying the
group `g` with key-exchange bytes `kx`. -/
def serverHelloBytes (rand echo : Bytes) (cs : CipherSuite) (g : NamedGroup) (kx : Bytes) :
    Bytes :=
  [3, 3] ++ rand ++ [echo.length] ++ echo ++ CipherSuite.pack cs ++ [0] ++
    toBytesBE 2 (8 + kx.length) ++
    ([0, 51] ++ toBytesBE 2 (4 + kx.length) ++ (NamedGroup.pack g ++ toBytesBE 2 kx.length ++ kx))

/-- Concrete crypto provider used by witnesses and counterexamples. -/
def testCrypto : Crypto where
  verify_data := fun _ _ => []
  tls_ciphertext := fun _ inner => 23 :: inner
  decrypt := fun _ content _ => content
  scalarmult := fun _ _ => [5]
  server_handshake_traffic_secret := fun _ _ _ => [1]
  client_handshake_traffic_secret := fun _ _ _ => [2]
  server_application_traffic_secret_0 := fun _ _ _ => [3]
  client_application_traffic_secret_0 := fun _ _ _ => [4]

/-- Concrete mid-handshake client state used by witnesses and counterexamples:
the server hello has been processed, so the peer cipher and the generator
locals are installed. -/
def testState : ClientState where
  private_key := [9]
  client_hello_data := [1, 0, 0, 0]
  handshake_context := [[1, 0, 0, 0]]
  server_finished := false
  peer_cipher := some ⟨.TLS_AES_128_GCM_SHA256, [1]⟩
  cipher := none
  encrypted_extensions := none
  certificate_entry := none
  certificate_verify := none
  session_ticket := none
  peer_handshake := none
  key_scheduler := some (.TLS_AES_128_GCM_SHA256, [5])
  client_hs_secret := some [2]

/-- The state after `testState` has successfully processed the Finished message
`[20, 0, 0, 0]` under `testCrypto`. -/
def testStateFin : ClientState :=
  { testState with handshake_context := [[1, 0, 0, 0], [20, 0, 0, 0]], server_finished := true }

/-- A concretely initialised client (fixed private key, x25519 key-share entry,
session id and hello random). -/
def testClient : ClientState :=
  TLSClient.init [9] ([0, 29] ++ [0, 32] ++ List.replicate 32 9)
    (List.replicate 32 7) (List.replicate 32 8)

/-- Reference description of the records `packRecords` produces: the `i`-th
record is `(type, version, fragment)` with version `0x0301` exactly for the
first handshake record. -/
def recsOf (ct : ContentType) : Nat → List Bytes → List (Nat × Bytes × Bytes)
  | _, [] => []
  | i, f :: fs =>
    (ct.val, if i = 0 ∧ ct = ContentType.handshake then [3, 1] else [3, 3], f) ::
      recsOf ct (i + 1) fs

/-- A crypto provider whose Finished verify_data is `[9]`, so that an empty
received verify_data mismatches. -/
def testCryptoBad : Crypto where
  verify_data := fun _ _ => [9]
  tls_ciphertext := fun _ inner => 23 :: inner
  decrypt := fun _ content _ => content
  scalarmult := fun _ _ => [5]
  server_handshake_traffic_secret := fun _ _ _ => [1]
  client_handshake_traffic_secret := fun _ _ _ => [2]
  server_application_traffic_secret_0 := fun _ _ _ => [3]
  client_application_traffic_secret_0 := fun _ _ _ => [4]

theorem natFromBytes_pair (a b : Nat) : natFromBytes [a, b] = a * 256 + b := by
  simp [natFromBytes]

theorem toBytesBE_two (n : Nat) : toBytesBE 2 n = [n / 256 % 256, n % 256] := rfl

theorem natFromBytes_toBytesBE_two (n : Nat) (h : n < 65536) :
    natFromBytes (toBytesBE 2 n) = n := by
  simp [natFromBytes, toBytesBE]
  omega

theorem rstripZeros_append_zero (l : Bytes) : rstripZeros (l ++ [0]) = rstripZeros l := by
  simp [rstripZeros, List.dropWhile]

theorem rstripZeros_append_replicate (l : Bytes) (n : Nat) :
    rstripZeros (l ++ List.replicate n 0) = rstripZeros l := by
  induction n with
  | zero => simp
  | succ n ih =>
    rw [List.replicate_succ', ← List.append_assoc, rstripZeros_append_zero, ih]

theorem rstripZeros_concat_nonzero (l : Bytes) (v : Nat) (hv : v ≠ 0) :
    rstripZeros (l ++ [v]) = l ++ [v] := by
  simp [rstripZeros, List.dropWhile, hv]

/-- C7: for every content type with non-zero wire value, every content and every
padding length up to 10, the inner plaintext is `content || type(1) || zeros`,
and the receive-side recovery (strip trailing zeros, last byte is the type, the
rest the content) returns exactly the original content and content type. -/
theorem inner_plaintext_roundtrip (ct : ContentType) (content : Bytes) (pad : Nat)
    (hct : ct ≠ ContentType.invalid) (hpad : pad ≤ 10) :
    ContentType.tls_inner_plaintext ct content pad =
      content ++ [ct.val] ++ List.replicate pad 0 ∧
    recoverInner (ContentType.tls_inner_plaintext ct content pad) = .ok (content, ct) := by
  refine ⟨rfl, ?_⟩
  have hv : ct.val ≠ 0 := by
    cases ct <;> simp_all [ContentType.val]
  have hform : ContentType.tls_inner_plaintext ct content pad =
      (content ++ [ct.val]) ++ List.replicate pad 0 := by
    simp [ContentType.tls_inner_plaintext, ContentType.pack]
  rw [recoverInner, hform, rstripZeros_append_replicate,
    rstripZeros_concat_nonzero _ _ hv]
  have hfrom : ContentType.fromValue ct.val = some ct := by cases ct <;> rfl
  simp [List.getLast?_concat, hfrom, List.dropLast_concat]

theorem inner_plaintext_roundtrip_witness :
    (ContentType.application_data ≠ ContentType.invalid ∧ (3 : Nat) ≤ 10) ∧
    recoverInner (ContentType.tls_inner_plaintext .application_data [5] 3) =
      .ok ([5], .application_data) :=
  ⟨⟨by decide, by decide⟩,
   (inner_plaintext_roundtrip .application_data [5] 3 (by decide) (by decide)).2⟩

/-- C4 counterexample: decoding an EncryptedExtensions body whose single
extension has the unrecognised type value `0xABCD` raises instead of retaining
the extension as opaque. -/
theorem unknown_extension_raises :
    unpack_handshake testCrypto testState [8, 0, 0, 4, 171, 205, 0, 0] =
      .error (.exc "Known ExtensionType type",
        { testState with handshake_context := [[1, 0, 0, 0], [8, 0, 0, 4, 171, 205, 0, 0]] }) := by
  rfl

/-- C4 amended: an extension block whose 2-byte type value is not a recognised
`ExtensionType` makes `ExtensionType.unpack_from` fail with the
`Known ExtensionType type` exception; it is not retained. -/
theorem unknown_extension_error_general (v1 v2 l1 l2 : Nat) (data : Bytes)
    (hunk : ExtensionType.fromValue (v1 * 256 + v2) = none)
    (hlen : l1 * 256 + l2 ≤ data.length) :
    ExtensionType.unpack_from (v1 :: v2 :: l1 :: l2 :: data) =
      .error (.exc "Known ExtensionType type") := by
  show unpackFromAux (data.length + 4) [] (v1 :: v2 :: l1 :: l2 :: data) = _
  rw [unpackFromAux]
  simp only [List.take_cons, List.take_zero, List.drop_succ_cons, List.drop_zero,
    natFromBytes_pair, List.take, List.length_take]
  rw [if_neg (by simp)]
  rw [if_pos (Nat.min_eq_left hlen)]
  rw [hunk]

theorem unknown_extension_error_witness :
    (ExtensionType.fromValue (171 * 256 + 205) = none ∧ 0 * 256 + 0 ≤ ([] : Bytes).length) ∧
    ExtensionType.unpack_from [171, 205, 0, 0] = .error (.exc "Known ExtensionType type") :=
  ⟨⟨by decide, by decide⟩,
   unknown_extension_error_general 171 205 0 0 [] (by decide) (by decide)⟩

/-- C10: when a NewSessionTicket message decodes successfully, processing it
stores the decoded ticket and changes nothing else: the resulting state is the
input state with only `session_ticket` updated, so the handshake transcript,
both cipher states and the `server_finished` flag are untouched. -/
theorem new_session_ticket_frame (crypto : Crypto) (st : ClientState) (mv : Bytes)
    (t : SessionTicket)
    (h4 : mv.head? = some 4)
    (hlen : (mv.drop 4).length = natFromBytes ((mv.drop 1).take 3))
    (ht : unpack_new_session_ticket mv = .ok t) :
    unpack_handshake crypto st mv = .ok ({ st with session_ticket := some t }, none) ∧
    ({ st with session_ticket := some t } : ClientState).handshake_context =
      st.handshake_context ∧
    ({ st with session_ticket := some t } : ClientState).peer_cipher = st.peer_cipher ∧
    ({ st with session_ticket := some t } : ClientState).cipher = st.cipher ∧
    ({ st with session_ticket := some t } : ClientState).server_finished =
      st.server_finished := by
  refine ⟨?_, rfl, rfl, rfl, rfl⟩
  rw [unpack_handshake, h4]
  simp only [HandshakeType.val]
  rw [if_pos hlen]
  norm_num
  rw [ht]

theorem new_session_ticket_frame_witness :
    (([4, 0, 0, 9, 0, 0, 0, 0, 0, 0, 0, 0, 0] : Bytes).head? = some 4 ∧
      (([4, 0, 0, 9, 0, 0, 0, 0, 0, 0, 0, 0, 0] : Bytes).drop 4).length =
        natFromBytes ((([4, 0, 0, 9, 0, 0, 0, 0, 0, 0, 0, 0, 0] : Bytes).drop 1).take 3) ∧
      unpack_new_session_ticket [4, 0, 0, 9, 0, 0, 0, 0, 0, 0, 0, 0, 0] =
        .ok ⟨67108873, 0, [], [], [(.server_name, .hostName [])]⟩) ∧
    unpack_handshake testCrypto testState [4, 0, 0, 9, 0, 0, 0, 0, 0, 0, 0, 0, 0] =
      .ok ({ testState with
              session_ticket := some ⟨67108873, 0, [], [], [(.server_name, .hostName [])]⟩ },
           none) :=
  ⟨⟨by decide, by decide, by rfl⟩,
   (new_session_ticket_frame testCrypto testState _ _ (by decide) (by decide) (by rfl)).1⟩

/-- C9: if processing a Finished handshake message raises, no state change has
happened: the error carries the state with the transcript and the
`server_finished` flag exactly as they were. -/
theorem finished_failure_leaves_state (crypto : Crypto) (st : ClientState) (mv : Bytes)
    (e : Err) (st' : ClientState)
    (h20 : mv.head? = some 20)
    (herr : unpack_handshake crypto st mv = .error (e, st')) :
    st'.handshake_context = st.handshake_context ∧
    st'.server_finished = st.server_finished := by
  rw [unpack_handshake, h20] at herr
  simp only [HandshakeType.val] at herr
  norm_num at herr
  split at herr
  · split at herr
    · simp only [Except.error.injEq, Prod.mk.injEq] at herr
      obtain ⟨-, rfl⟩ := herr
      exact ⟨rfl, rfl⟩
    · split at herr
      · simp at herr
      · simp only [Except.error.injEq, Prod.mk.injEq] at herr
        obtain ⟨-, rfl⟩ := herr
        exact ⟨rfl, rfl⟩
  · simp only [Except.error.injEq, Prod.mk.injEq] at herr
    obtain ⟨-, rfl⟩ := herr
    exact ⟨rfl, rfl⟩

theorem finished_failure_leaves_state_witness :
    (([20, 0, 0, 0] : Bytes).head? = some 20 ∧
      unpack_handshake testCryptoBad testState [20, 0, 0, 0] =
        .error (.assertError "server handshake finished does not match", testState)) ∧
    testState.handshake_context = testState.handshake_context ∧
    testState.server_finished = testState.server_finished :=
  ⟨⟨by decide, by rfl⟩,
   finished_failure_leaves_state testCryptoBad testState [20, 0, 0, 0] _ _
     (by decide) (by rfl)⟩

/-- C1 counterexample: at a concrete state and Finished message whose
verify_data mismatches, the client raises the bare assertion failure
`server handshake finished does not match`; no fatal `decrypt_error` (code 51)
alert is produced. -/
theorem finished_mismatch_raises_assertion_not_alert :
    unpack_handshake testCryptoBad testState [20, 0, 0, 0] =
      .error (.assertError "server handshake finished does not match", testState) ∧
    Err.isDecryptError (.assertError "server handshake finished does not match") = false :=
  ⟨rfl, rfl⟩

/-- C1 amended: on a Finished message the client computes the expected
verify_data over the concatenation of all handshake messages received before
the Finished (the Finished itself excluded), compares it with the received
body, and on mismatch raises an assertion error (not a `DecryptError` alert)
instead of accepting; on match the message is accepted and appended. -/
theorem finished_verify_transcript_and_mismatch_rejects
    (crypto : Crypto) (st : ClientState) (mv : Bytes) (pc : Cipher)
    (h20 : mv.head? = some 20)
    (hlen : (mv.drop 4).length = natFromBytes ((mv.drop 1).take 3))
    (hpc : st.peer_cipher = some pc) :
    (mv.drop 4 ≠ crypto.verify_data pc st.handshake_context.flatten →
      unpack_handshake crypto st mv =
        .error (.assertError "server handshake finished does not match", st)) ∧
    (mv.drop 4 = crypto.verify_data pc st.handshake_context.flatten →
      unpack_handshake crypto st mv =
        .ok ({ st with handshake_context := st.handshake_context ++ [mv],
                       server_finished := true }, none)) := by
  rw [unpack_handshake, h20]
  simp only [HandshakeType.val]
  rw [if_pos hlen]
  norm_num
  rw [hpc]
  refine ⟨fun h => ?_, fun h => ?_⟩ <;> simp [h]

theorem finished_verify_witness :
    (([20, 0, 0, 0] : Bytes).head? = some 20 ∧
      (([20, 0, 0, 0] : Bytes).drop 4).length =
        natFromBytes ((([20, 0, 0, 0] : Bytes).drop 1).take 3) ∧
      testState.peer_cipher = some ⟨.TLS_AES_128_GCM_SHA256, [1]⟩) ∧
    ((([20, 0, 0, 0] : Bytes).drop 4 ≠
        testCryptoBad.verify_data ⟨.TLS_AES_128_GCM_SHA256, [1]⟩
          testState.handshake_context.flatten →
      unpack_handshake testCryptoBad testState [20, 0, 0, 0] =
        .error (.assertError "server handshake finished does not match", testState)) ∧
     (([20, 0, 0, 0] : Bytes).drop 4 =
        testCryptoBad.verify_data ⟨.TLS_AES_128_GCM_SHA256, [1]⟩
          testState.handshake_context.flatten →
      unpack_handshake testCryptoBad testState [20, 0, 0, 0] =
        .ok ({ testState with
                handshake_context := testState.handshake_context ++ [[20, 0, 0, 0]],
                server_finished := true }, none))) :=
  ⟨⟨by decide, by decide, by rfl⟩,
   finished_verify_transcript_and_mismatch_rejects testCryptoBad testState [20, 0, 0, 0]
     ⟨.TLS_AES_128_GCM_SHA256, [1]⟩ (by decide) (by decide) (by rfl)⟩

/-- C8 counterexample: a change_cipher_spec record that arrives after an
encrypted (application_data) record has already been processed is still
accepted and silently ignored; no `UnexpectedMessage` error is raised. -/
theorem ccs_after_encrypted_record_ignored :
    tls_response_run testCrypto 0 testState
      [([23, 3, 3, 0, 2], [112, 23]), ([20, 3, 3, 0, 1], [1])] =
      .ok (testState, [112]) := by
  rfl

/-- C8 amended: a change_cipher_spec record with content `0x01` is accepted and
ignored in every state — before or after the first encrypted record — and a
change_cipher_spec with any other content is an assertion failure. -/
theorem ccs_always_ignored (crypto : Crypto) (pad : Nat) (st : ClientState)
    (b4 b5 : Nat) (c : Bytes) (hc : c ≠ [1]) :
    tls_response_step crypto pad st [20, 3, 3, b4, b5] [1] = .ok (st, []) ∧
    tls_response_step crypto pad st [20, 3, 3, b4, b5] c =
      .error (.assertError "change_cipher should be 0x01", st) := by
  refine ⟨?_, ?_⟩
  · rw [tls_response_step]
    norm_num [ContentType.val]
  · rw [tls_response_step]
    norm_num [ContentType.val]
    simp [hc]

theorem ccs_always_ignored_witness :
    (([2] : Bytes) ≠ [1]) ∧
    tls_response_step testCrypto 0 testState [20, 3, 3, 0, 1] [1] = .ok (testState, []) ∧
    tls_response_step testCrypto 0 testState [20, 3, 3, 0, 1] [2] =
      .error (.assertError "change_cipher should be 0x01", testState) :=
  ⟨by decide,
   (ccs_always_ignored testCrypto 0 testState 0 1 [2] (by decide)).1,
   (ccs_always_ignored testCrypto 0 testState 0 1 [2] (by decide)).2⟩

/-- C5: once the server Finished message verifies (the processed state has
`server_finished = true`), the step emits exactly one change_cipher_spec
record `[20, 3, 3, 0, 1, 1]` (content `0x01`) immediately followed by the
client Finished encrypted under the client handshake traffic secret, and the
resulting state has its reader and writer ciphers installed from the server
and client application traffic secrets with `server_finished` reset. -/
theorem server_finished_response_order
    (crypto : Crypto) (pad : Nat) (st st1 : ClientState)
    (head content p data : Bytes) (l1 l2 : Nat) (o : Option ServerHello)
    (pc : Cipher) (chs sk : Bytes) (suite : CipherSuite)
    (hhead : head = [23, 3, 3, l1, l2])
    (hpc : st.peer_cipher = some pc)
    (hp : rstripZeros (crypto.decrypt pc content head) = p)
    (hlast : p.getLast? = some 22)
    (hdata : p.dropLast = data)
    (hfin : unpack_handshake crypto st data = .ok (st1, o))
    (hsf : st1.server_finished = true)
    (hchs : st1.client_hs_secret = some chs)
    (hks : st1.key_scheduler = some (suite, sk)) :
    tls_response_step crypto pad st head content =
      .ok ({ st1 with
              peer_cipher := some ⟨suite,
                crypto.server_application_traffic_secret_0 suite sk
                  st1.handshake_context.flatten⟩,
              server_finished := false,
              cipher := some ⟨suite,
                crypto.client_application_traffic_secret_0 suite sk
                  st1.handshake_context.flatten⟩ },
           ContentType.tls_plaintext .change_cipher_spec [1] ++
             crypto.tls_ciphertext ⟨suite, chs⟩
               (HandshakeType.tls_inner_plaintext .finished
                 (crypto.verify_data ⟨suite, chs⟩ st1.handshake_context.flatten) pad)) ∧
    ContentType.tls_plaintext .change_cipher_spec [1] = [20, 3, 3, 0, 1, 1] := by
  constructor
  · subst hhead
    rw [tls_response_step]
    norm_num [ContentType.val]
    rw [hpc]
    simp only [hp]
    rw [hlast]
    norm_num [ContentType.fromValue]
    rw [hdata, hfin]
    simp only [hsf]
    rw [hchs, hks]
    simp
  · rw [ContentType.tls_plaintext, fragments]
    norm_num [packRecords, pack_int, toBytesBE, ContentType.pack, ContentType.val]
    decide

theorem server_finished_response_order_witness :
    (([23, 3, 3, 0, 5] : Bytes) = [23, 3, 3, 0, 5] ∧
      testState.peer_cipher = some ⟨.TLS_AES_128_GCM_SHA256, [1]⟩ ∧
      rstripZeros (testCrypto.decrypt ⟨.TLS_AES_128_GCM_SHA256, [1]⟩ [20, 0, 0, 0, 22]
        [23, 3, 3, 0, 5]) = [20, 0, 0, 0, 22] ∧
      ([20, 0, 0, 0, 22] : Bytes).getLast? = some 22 ∧
      ([20, 0, 0, 0, 22] : Bytes).dropLast = [20, 0, 0, 0] ∧
      unpack_handshake testCrypto testState [20, 0, 0, 0] = .ok (testStateFin, none) ∧
      testStateFin.server_finished = true ∧
      testStateFin.client_hs_secret = some [2] ∧
      testStateFin.key_scheduler = some (.TLS_AES_128_GCM_SHA256, [5])) ∧
    tls_response_step testCrypto 0 testState [23, 3, 3, 0, 5] [20, 0, 0, 0, 22] =
      .ok ({ testStateFin with
              peer_cipher := some ⟨.TLS_AES_128_GCM_SHA256,
                testCrypto.server_application_traffic_secret_0 .TLS_AES_128_GCM_SHA256 [5]
                  testStateFin.handshake_context.flatten⟩,
              server_finished := false,
              cipher := some ⟨.TLS_AES_128_GCM_SHA256,
                testCrypto.client_application_traffic_secret_0 .TLS_AES_128_GCM_SHA256 [5]
                  testStateFin.handshake_context.flatten⟩ },
           ContentType.tls_plaintext .change_cipher_spec [1] ++
             testCrypto.tls_ciphertext ⟨.TLS_AES_128_GCM_SHA256, [2]⟩
               (HandshakeType.tls_inner_plaintext .finished
                 (testCrypto.verify_data ⟨.TLS_AES_128_GCM_SHA256, [2]⟩
                   testStateFin.handshake_context.flatten) 0)) :=
  ⟨⟨rfl, by rfl, by rfl, by decide, by decide, by rfl, by rfl, by rfl, by rfl⟩,
   (server_finished_response_order testCrypto 0 testState testStateFin
     [23, 3, 3, 0, 5] [20, 0, 0, 0, 22] [20, 0, 0, 0, 22] [20, 0, 0, 0] 0 5 none
     ⟨.TLS_AES_128_GCM_SHA256, [1]⟩ [2] [5] .TLS_AES_128_GCM_SHA256
     rfl (by rfl) (by rfl) (by decide) (by decide) (by rfl) (by rfl) (by rfl) (by rfl)).1⟩

theorem toBytesBE_length (w n : Nat) : (toBytesBE w n).length = w := by
  induction w generalizing n with
  | zero => rfl
  | succ w ih => simp [toBytesBE, ih]

/-- C3 counterexample: the default-configuration ClientHello's cipher_suites
vector is `CipherSuite.pack_all`, which lists only four suites; the value
`0x1305` (TLS_AES_128_CCM_8_SHA256, decimal 4869) does not appear. -/
theorem client_hello_offers_four_suites :
    ((testClient.client_hello_data.drop 71).take 10 = CipherSuite.pack_all) ∧
    CipherSuite.pack_all = [0, 8, 19, 1, 19, 2, 19, 4, 19, 3] ∧
    parseSuites (CipherSuite.pack_all.drop 2) = [4865, 4866, 4868, 4867] ∧
    ¬ (4869 ∈ parseSuites (CipherSuite.pack_all.drop 2)) := by
  refine ⟨rfl, rfl, rfl, by decide⟩

/-- C3 amended: for every extension list and 32-byte session id and random, the
ClientHello built by `client_hello_pack` carries exactly the four suites of
`CipherSuite.pack_all` — AES_128_GCM, AES_256_GCM, AES_128_CCM,
CHACHA20_POLY1305, in that order, each once — and TLS_AES_128_CCM_8_SHA256 is
not offered. -/
theorem pack_all_suites_characterization (ext : List Bytes) (sid rand : Bytes)
    (hsid : sid.length = 32) (hrand : rand.length = 32) :
    ((client_hello_pack ext sid rand).drop 71).take 10 = CipherSuite.pack_all ∧
    parseSuites (CipherSuite.pack_all.drop 2) =
      [CipherSuite.val .TLS_AES_128_GCM_SHA256, CipherSuite.val .TLS_AES_256_GCM_SHA384,
       CipherSuite.val .TLS_AES_128_CCM_SHA256,
       CipherSuite.val .TLS_CHACHA20_POLY1305_SHA256] ∧
    (parseSuites (CipherSuite.pack_all.drop 2)).count
      (CipherSuite.val .TLS_AES_128_GCM_SHA256) = 1 ∧
    (parseSuites (CipherSuite.pack_all.drop 2)).count
      (CipherSuite.val .TLS_AES_256_GCM_SHA384) = 1 ∧
    (parseSuites (CipherSuite.pack_all.drop 2)).count
      (CipherSuite.val .TLS_AES_128_CCM_SHA256) = 1 ∧
    (parseSuites (CipherSuite.pack_all.drop 2)).count
      (CipherSuite.val .TLS_CHACHA20_POLY1305_SHA256) = 1 ∧
    CipherSuite.val .TLS_AES_128_CCM_8_SHA256 ∉ parseSuites (CipherSuite.pack_all.drop 2) := by
  refine ⟨?_, by decide, by decide, by decide, by decide, by decide, by decide⟩
  have hform : client_hello_pack ext sid rand =
      ([1] ++ toBytesBE 3 ([3, 3] ++ rand ++ pack_int 1 sid ++ CipherSuite.pack_all ++ [1, 0] ++
          pack_list 2 ext).length ++ [3, 3] ++ rand ++ [sid.length % 256] ++ sid) ++
        (CipherSuite.pack_all ++ ([1, 0] ++ pack_list 2 ext)) := by
    simp [client_hello_pack, HandshakeType.pack_data, HandshakeType.pack,
      HandshakeType.val, pack_int, toBytesBE]
  have hpre : ([1] ++ toBytesBE 3 ([3, 3] ++ rand ++ pack_int 1 sid ++ CipherSuite.pack_all ++
      [1, 0] ++ pack_list 2 ext).length ++ [3, 3] ++ rand ++ [sid.length % 256] ++
        sid).length = 71 := by
    simp [toBytesBE_length, hrand, hsid]
  rw [hform, List.drop_left' hpre, List.take_left' (by rfl)]

theorem pack_all_suites_witness :
    ((List.replicate 32 0 : Bytes).length = 32 ∧ (List.replicate 32 1 : Bytes).length = 32) ∧
    ((client_hello_pack [] (List.replicate 32 0) (List.replicate 32 1)).drop 71).take 10 =
      CipherSuite.pack_all :=
  ⟨⟨by decide, by decide⟩,
   (pack_all_suites_characterization [] (List.replicate 32 0) (List.replicate 32 1)
     (by decide) (by decide)).1⟩

theorem cipherSuitePack_length (cs : CipherSuite) : (CipherSuite.pack cs).length = 2 := by
  cases cs <;> rfl

theorem namedGroupPack_length (g : NamedGroup) : (NamedGroup.pack g).length = 2 := by
  cases g <;> rfl

theorem CipherSuite.get_cipher_pack (cs : CipherSuite) :
    CipherSuite.get_cipher (CipherSuite.pack cs) = .ok cs := by
  cases cs <;> rfl

theorem NamedGroup.natFromBytes_pack (g : NamedGroup) :
    natFromBytes (NamedGroup.pack g) = g.val := by
  cases g <;> rfl

theorem NamedGroup.fromValue_val (g : NamedGroup) : NamedGroup.fromValue g.val = some g := by
  cases g <;> rfl

/-- C2 counterexample: a ServerHello whose session-id echo is `[1, 2, 3]`
(length 3 — not the 0 or 32 the client can send, and unequal to whatever was
sent), whose cipher suite `0x1305` is recognised but not in the offered
vector, and whose key_share group is secp256r1 rather than x25519, is accepted
by `unpack_server_hello` without any error. -/
theorem server_hello_accepts_unvalidated_fields :
    unpack_server_hello
      ([3, 3] ++ List.replicate 32 0 ++
        [3, 1, 2, 3, 19, 5, 0, 0, 40, 0, 51, 0, 36, 0, 23, 0, 32] ++
        List.replicate 32 7) =
      .ok ⟨.server_hello, List.replicate 32 0, [1, 2, 3], .TLS_AES_128_CCM_8_SHA256,
        [(.key_share, .keyShare ⟨.secp256r1, List.replicate 32 7⟩)]⟩ ∧
    ¬ (4869 ∈ parseSuites (CipherSuite.pack_all.drop 2)) ∧
    ([1, 2, 3] : Bytes).length ≠ 0 ∧ ([1, 2, 3] : Bytes).length ≠ 32 ∧
    NamedGroup.secp256r1 ≠ NamedGroup.x25519 :=
  ⟨rfl, by decide, by decide, by decide, by decide⟩

/-- C2 amended: `unpack_server_hello` checks only `legacy_version = 0x0303`,
`legacy_compression_method = 0`, that the cipher suite is recognised and the
length fields are consistent.  Any echoed session id (any length up to 255,
never compared with the one sent), any of the five recognised suites and any
recognised key_share group — not just x25519 — are accepted. -/
theorem server_hello_validation_characterization
    (rand echo kx : Bytes) (cs : CipherSuite) (g : NamedGroup)
    (hrand : rand.length = 32) (hecho : echo.length ≤ 255) (hkx : kx.length ≤ 65527) :
    unpack_server_hello (serverHelloBytes rand echo cs g kx) =
      .ok ⟨.server_hello, rand, echo, cs, [(.key_share, .keyShare ⟨g, kx⟩)]⟩ := by
  set k := kx.length with hk
  set D : Bytes := NamedGroup.pack g ++ (toBytesBE 2 k ++ kx) with hD
  set E2 : Bytes := toBytesBE 2 (4 + k) ++ D with hE2
  set E : Bytes := 0 :: 51 :: E2 with hE
  set U : Bytes := toBytesBE 2 (8 + k) ++ E with hU
  set mv : Bytes := serverHelloBytes rand echo cs g kx with hmvdef
  have hassoc : mv = [3, 3] ++ (rand ++ (echo.length ::
      (echo ++ (CipherSuite.pack cs ++ (0 :: U))))) := by
    rw [hmvdef, serverHelloBytes]
    simp [hU, hE, hE2, hD, List.append_assoc]
  have h_take2 : mv.take 2 = [3, 3] := by rw [hassoc]; rfl
  have h_drop2 : mv.drop 2 = rand ++ (echo.length :: (echo ++ (CipherSuite.pack cs ++ (0 :: U)))) := by
    rw [hassoc]; rfl
  have h_random : (mv.drop 2).take 32 = rand := by
    rw [h_drop2]; exact List.take_left' hrand
  have h_drop34 : mv.drop 34 = echo.length :: (echo ++ (CipherSuite.pack cs ++ (0 :: U))) := by
    have h1 : mv.drop 34 = (mv.drop 2).drop 32 := by rw [List.drop_drop]
    rw [h1, h_drop2, List.drop_left' hrand]
  have h_head34 : (mv.drop 34).head? = some echo.length := by rw [h_drop34]; rfl
  have h_drop35 : mv.drop 35 = echo ++ (CipherSuite.pack cs ++ (0 :: U)) := by
    have h1 : mv.drop 35 = (mv.drop 34).drop 1 := by rw [List.drop_drop]
    rw [h1, h_drop34]; rfl
  have h_echo : (mv.drop 35).take echo.length = echo := by
    rw [h_drop35]; exact List.take_left echo _
  have h_mv1 : mv.drop (35 + echo.length) = CipherSuite.pack cs ++ (0 :: U) := by
    have h1 : mv.drop (35 + echo.length) = (mv.drop 35).drop echo.length := by
      rw [List.drop_drop, Nat.add_comm]
    rw [h1, h_drop35, List.drop_left]
  have h_cs : (CipherSuite.pack cs ++ (0 :: U)).take 2 = CipherSuite.pack cs :=
    List.take_left' (cipherSuitePack_length cs)
  have h_csdrop : (CipherSuite.pack cs ++ (0 :: U)).drop 2 = 0 :: U :=
    List.drop_left' (cipherSuitePack_length cs)
  have h_comp : ((CipherSuite.pack cs ++ (0 :: U)).drop 2).head? = some 0 := by
    rw [h_csdrop]; rfl
  have h_drop3 : (CipherSuite.pack cs ++ (0 :: U)).drop 3 = U := by
    have h1 : (CipherSuite.pack cs ++ (0 :: U)).drop 3 =
        ((CipherSuite.pack cs ++ (0 :: U)).drop 2).drop 1 := by rw [List.drop_drop]
    rw [h1, h_csdrop]; rfl
  have h_extlen : natFromBytes (((CipherSuite.pack cs ++ (0 :: U)).drop 3).take 2) = 8 + k := by
    rw [h_drop3, hU, List.take_left' (toBytesBE_length 2 _),
      natFromBytes_toBytesBE_two _ (by omega)]
  have h_drop5 : (CipherSuite.pack cs ++ (0 :: U)).drop 5 = E := by
    have h1 : (CipherSuite.pack cs ++ (0 :: U)).drop 5 =
        ((CipherSuite.pack cs ++ (0 :: U)).drop 3).drop 2 := by rw [List.drop_drop]
    rw [h1, h_drop3, hU, List.drop_left' (toBytesBE_length 2 _)]
  have hDlen : D.length = 4 + k := by
    rw [hD]; simp [namedGroupPack_length, toBytesBE_length]; omega
  have hE2len : E2.length = (4 + k) + 2 := by
    rw [hE2]; simp [toBytesBE_length, hDlen]; omega
  have h_Elen : E.length = (k + 7) + 1 := by
    rw [hE]; simp [hE2len]; omega
  have h_ks_unpack : NamedGroup.unpack_from D = .ok ⟨g, kx⟩ := by
    rw [NamedGroup.unpack_from]
    have h1 : D.take 2 = NamedGroup.pack g := by
      rw [hD]; exact List.take_left' (namedGroupPack_length g)
    have h2 : D.drop 2 = toBytesBE 2 k ++ kx := by
      rw [hD]; exact List.drop_left' (namedGroupPack_length g)
    have h3 : D.drop 4 = kx := by
      have h4 : D.drop 4 = (D.drop 2).drop 2 := by rw [List.drop_drop]
      rw [h4, h2, List.drop_left' (toBytesBE_length 2 _)]
    rw [h1, NamedGroup.natFromBytes_pack, NamedGroup.fromValue_val]
    rw [h2, List.take_left' (toBytesBE_length 2 _),
      natFromBytes_toBytesBE_two _ (by omega), h3]
    simp [hk]
  have h_unf : ExtensionType.unpack_from E = .ok [(.key_share, .keyShare ⟨g, kx⟩)] := by
    rw [ExtensionType.unpack_from, h_Elen, hE, unpackFromAux]
    have hE2ne : ¬ (E2 = []) := by
      intro h
      have := congrArg List.length h
      simp [hE2len] at this
    simp only [List.take_succ_cons, List.take_zero, List.drop_succ_cons, List.drop_zero]
    rw [if_neg hE2ne]
    have hE2take : E2.take 2 = toBytesBE 2 (4 + k) := by
      rw [hE2]; exact List.take_left' (toBytesBE_length 2 _)
    have hE2drop : E2.drop 2 = D := by
      rw [hE2]; exact List.drop_left' (toBytesBE_length 2 _)
    rw [hE2take, natFromBytes_toBytesBE_two _ (by omega), hE2drop]
    have hDtake : D.take (4 + k) = D := by rw [← hDlen, List.take_length]
    rw [hDtake, if_pos hDlen]
    have hval : natFromBytes [0, 51] = 51 := by rw [natFromBytes_pair]
    simp only [natFromBytes_pair]
    norm_num [ExtensionType.fromValue, ExtensionType.unpack, h_ks_unpack]
    have hE2rest : E2.drop (4 + k + 2) = [] := by
      have h1 : E2.drop (4 + k + 2) = (E2.drop 2).drop (4 + k) := by
        rw [List.drop_drop]; ring_nf
      rw [h1, hE2drop, ← hDlen, List.drop_length]
    rw [hE2rest, if_neg (show ¬ (ExtensionType.key_share = ExtensionType.supported_versions)
      from by decide)]
    simp [unpackFromAux, insertExt]
  have h_Elen8 : E.length = 8 + k := by omega
  rw [unpack_server_hello, if_pos h_take2, h_head34]
  simp only [h_random, h_echo, h_mv1, h_cs, h_comp, h_drop5,
    CipherSuite.get_cipher_pack, h_extlen, h_unf]
  simp [h_Elen8]

theorem server_hello_validation_witness :
    ((List.replicate 32 0 : Bytes).length = 32 ∧ ([7, 8] : Bytes).length ≤ 255 ∧
      (List.replicate 32 9 : Bytes).length ≤ 65527) ∧
    unpack_server_hello
      (serverHelloBytes (List.replicate 32 0) [7, 8] .TLS_AES_256_GCM_SHA384 .x448
        (List.replicate 32 9)) =
      .ok ⟨.server_hello, List.replicate 32 0, [7, 8], .TLS_AES_256_GCM_SHA384,
        [(.key_share, .keyShare ⟨.x448, List.replicate 32 9⟩)]⟩ :=
  ⟨⟨by decide, by decide, by decide⟩,
   server_hello_validation_characterization (List.replicate 32 0) [7, 8]
     (List.replicate 32 9) .TLS_AES_256_GCM_SHA384 .x448 (by decide) (by decide) (by decide)⟩

theorem fragments_flatten (data : Bytes) : (fragments data).flatten = data := by
  induction data using fragments.induct with
  | case1 data h ih => rw [fragments, if_pos h]; simp [ih]
  | case2 data h => rw [fragments, if_neg h]; simp

theorem fragments_ne_nil (data : Bytes) : fragments data ≠ [] := by
  rw [fragments]; split <;> simp

theorem fragments_length_le (data : Bytes) : ∀ f ∈ fragments data, f.length ≤ 16384 := by
  induction data using fragments.induct with
  | case1 data h ih =>
    rw [fragments, if_pos h]
    intro f hf
    rcases List.mem_cons.mp hf with hf | hf
    · subst hf; simp
    · exact ih f hf
  | case2 data h =>
    rw [fragments, if_neg h]
    intro f hf
    rcases List.mem_cons.mp hf with hf | hf
    · subst hf; omega
    · simp at hf

theorem fragments_count (data : Bytes) (h : data ≠ []) :
    (fragments data).length = (data.length + 16383) / 16384 := by
  induction data using fragments.induct with
  | case1 data hgt ih =>
    rw [fragments, if_pos hgt]
    have hne : data.drop 16384 ≠ [] := by
      intro hd
      have := congrArg List.length hd
      simp at this
      omega
    have := ih hne
    simp only [List.length_cons, this, List.length_drop]
    omega
  | case2 data hle =>
    rw [fragments, if_neg hle]
    have h1 : data.length ≠ 0 := fun hz => h (List.length_eq_zero.mp hz)
    simp only [List.length_cons, List.length_nil]
    omega

theorem fragments_dropLast (data : Bytes) :
    ∀ f ∈ (fragments data).dropLast, f.length = 16384 := by
  induction data using fragments.induct with
  | case1 data hgt ih =>
    rw [fragments, if_pos hgt]
    rw [List.dropLast_cons_of_ne_nil (fragments_ne_nil _)]
    intro f hf
    rcases List.mem_cons.mp hf with hf | hf
    · subst hf; simp; omega
    · exact ih f hf
  | case2 data hle =>
    rw [fragments, if_neg hle]
    simp

theorem parseRecords_cons (t v1 v2 : Nat) (f rest : Bytes) (hf : f.length < 65536) :
    parseRecords (t :: v1 :: v2 :: (pack_int 2 f ++ rest)) =
      (t, [v1, v2], f) :: parseRecords rest := by
  have hsplit : pack_int 2 f ++ rest =
      f.length / 256 % 256 :: f.length % 256 :: (f ++ rest) := by
    simp [pack_int, toBytesBE]
  rw [hsplit, parseRecords]
  have hlen : f.length / 256 % 256 * 256 + f.length % 256 = f.length := by omega
  simp only [hlen, List.take_left, List.drop_left]

theorem recsOf_ne_nil (ct : ContentType) (i : Nat) (f : Bytes) (fs : List Bytes) :
    recsOf ct i (f :: fs) ≠ [] := by
  rw [recsOf]; simp

theorem parseRecords_packRecords (ct : ContentType) (fs : List Bytes) (i : Nat)
    (h : ∀ f ∈ fs, f.length < 65536) :
    parseRecords (packRecords ct i fs) = recsOf ct i fs := by
  induction fs generalizing i with
  | nil =>
    rw [packRecords, recsOf]
    simp [parseRecords]
  | cons f fs ih =>
    have hf : f.length < 65536 := h f (by simp)
    have hrest : ∀ g ∈ fs, g.length < 65536 := fun g hg => h g (by simp [hg])
    rw [packRecords, recsOf]
    by_cases hcond : i = 0 ∧ ct = ContentType.handshake
    · rw [if_pos hcond]
      show parseRecords (ct.val :: 3 :: 1 :: (pack_int 2 f ++ packRecords ct (i + 1) fs)) = _
      rw [parseRecords_cons _ _ _ _ _ hf, ih _ hrest]
    · rw [if_neg hcond]
      show parseRecords (ct.val :: 3 :: 3 :: (pack_int 2 f ++ packRecords ct (i + 1) fs)) = _
      rw [parseRecords_cons _ _ _ _ _ hf, ih _ hrest]

theorem recsOf_map_fragment (ct : ContentType) (fs : List Bytes) (i : Nat) :
    (recsOf ct i fs).map (fun r => r.2.2) = fs := by
  induction fs generalizing i with
  | nil => rfl
  | cons f fs ih => rw [recsOf]; simp [ih]

theorem recsOf_length (ct : ContentType) (fs : List Bytes) (i : Nat) :
    (recsOf ct i fs).length = fs.length := by
  induction fs generalizing i with
  | nil => rfl
  | cons f fs ih => rw [recsOf]; simp [ih]

theorem recsOf_mem (ct : ContentType) (fs : List Bytes) (i : Nat) :
    ∀ r ∈ recsOf ct i fs, r.1 = ct.val ∧ r.2.2 ∈ fs := by
  induction fs generalizing i with
  | nil => intro r hr; rw [recsOf] at hr; simp at hr
  | cons f fs ih =>
    intro r hr
    rw [recsOf] at hr
    rcases List.mem_cons.mp hr with hr | hr
    · subst hr; simp
    · obtain ⟨h1, h2⟩ := ih (i + 1) r hr
      exact ⟨h1, by simp [h2]⟩

theorem recsOf_version_pos (ct : ContentType) (fs : List Bytes) (i : Nat) (hi : i ≠ 0) :
    ∀ r ∈ recsOf ct i fs, r.2.1 = [3, 3] := by
  induction fs generalizing i with
  | nil => intro r hr; rw [recsOf] at hr; simp at hr
  | cons f fs ih =>
    intro r hr
    rw [recsOf] at hr
    rcases List.mem_cons.mp hr with hr | hr
    · subst hr; simp [hi]
    · exact ih (i + 1) (by omega) r hr

theorem recsOf_dropLast_mem (ct : ContentType) (fs : List Bytes) (i : Nat) :
    ∀ r ∈ (recsOf ct i fs).dropLast, r.2.2 ∈ fs.dropLast := by
  induction fs generalizing i with
  | nil => intro r hr; rw [recsOf] at hr; simp at hr
  | cons f fs ih =>
    intro r hr
    rw [recsOf] at hr
    cases fs with
    | nil =>
      rw [recsOf] at hr
      simp at hr
    | cons g gs =>
      rw [List.dropLast_cons_of_ne_nil (recsOf_ne_nil ct (i + 1) g gs)] at hr
      rw [List.dropLast_cons_of_ne_nil (by simp)]
      rcases List.mem_cons.mp hr with hr | hr
      · subst hr; simp
      · exact List.mem_cons_of_mem _ (ih (i + 1) r hr)

theorem recsOf_reserialize (ct : ContentType) (fs : List Bytes) (i : Nat) :
    ((recsOf ct i fs).map (fun r => [r.1] ++ r.2.1 ++ pack_int 2 r.2.2)).flatten =
      packRecords ct i fs := by
  induction fs generalizing i with
  | nil => rfl
  | cons f fs ih =>
    rw [recsOf, packRecords]
    simp only [List.map_cons, List.flatten_cons, ih]
    simp [ContentType.pack, List.append_assoc]

/-- C6: for every non-empty plaintext, the outgoing record framing parses back
into records that carry the content type and reassemble to the plaintext, in
maximal fragments of at most `2 ^ 14` bytes (`⌈len / 2 ^ 14⌉` records, so one
record for `2 ^ 14` bytes and two for `2 ^ 14 + 1`); the first handshake record
has legacy version `0x0301` and every later record `0x0303`, and the stream is
exactly the concatenation of `type(1) || version(2) || length(2) || fragment`
per record. -/
theorem tls_plaintext_fragmentation (ct : ContentType) (data : Bytes) (h : data ≠ []) :
    ((parseRecords (ContentType.tls_plaintext ct data)).map (fun r => r.2.2)).flatten =
      data ∧
    (parseRecords (ContentType.tls_plaintext ct data)).length =
      (data.length + 16383) / 16384 ∧
    (∀ r ∈ parseRecords (ContentType.tls_plaintext ct data),
      r.1 = ct.val ∧ r.2.2.length ≤ 16384) ∧
    (∀ r ∈ (parseRecords (ContentType.tls_plaintext ct data)).dropLast,
      r.2.2.length = 16384) ∧
    (parseRecords (ContentType.tls_plaintext ct data)).head?.map (fun r => r.2.1) =
      some (if ct = ContentType.handshake then [3, 1] else [3, 3]) ∧
    (∀ r ∈ (parseRecords (ContentType.tls_plaintext ct data)).tail, r.2.1 = [3, 3]) ∧
    ContentType.tls_plaintext ct data =
      ((parseRecords (ContentType.tls_plaintext ct data)).map
        (fun r => [r.1] ++ r.2.1 ++ pack_int 2 r.2.2)).flatten := by
  have hlt : ∀ f ∈ fragments data, f.length < 65536 := fun f hf =>
    lt_of_le_of_lt (fragments_length_le data f hf) (by norm_num)
  have hrecs : parseRecords (ContentType.tls_plaintext ct data) =
      recsOf ct 0 (fragments data) := by
    rw [ContentType.tls_plaintext, parseRecords_packRecords ct _ 0 hlt]
  refine ⟨?_, ?_, ?_, ?_, ?_, ?_, ?_⟩
  · rw [hrecs, recsOf_map_fragment, fragments_flatten]
  · rw [hrecs, recsOf_length, fragments_count data h]
  · intro r hr
    rw [hrecs] at hr
    obtain ⟨h1, h2⟩ := recsOf_mem ct (fragments data) 0 r hr
    exact ⟨h1, fragments_length_le data _ h2⟩
  · intro r hr
    rw [hrecs] at hr
    exact fragments_dropLast data _ (recsOf_dropLast_mem ct (fragments data) 0 r hr)
  · rw [hrecs]
    cases hfr : fragments data with
    | nil => exact absurd hfr (fragments_ne_nil data)
    | cons f fs => rw [recsOf]; simp
  · rw [hrecs]
    cases hfr : fragments data with
    | nil => exact absurd hfr (fragments_ne_nil data)
    | cons f fs =>
      rw [recsOf]
      intro r hr
      exact recsOf_version_pos ct fs 1 (by omega) r (by simpa using hr)
  · rw [hrecs, recsOf_reserialize, ContentType.tls_plaintext]

theorem tls_plaintext_fragmentation_witness :
    (([7] : Bytes) ≠ []) ∧
    (((parseRecords (ContentType.tls_plaintext .handshake [7])).map
        (fun r => r.2.2)).flatten = [7] ∧
      (parseRecords (ContentType.tls_plaintext .handshake [7])).length =
        (([7] : Bytes).length + 16383) / 16384 ∧
      (∀ r ∈ parseRecords (ContentType.tls_plaintext .handshake [7]),
        r.1 = ContentType.val .handshake ∧ r.2.2.length ≤ 16384) ∧
      (∀ r ∈ (parseRecords (ContentType.tls_plaintext .handshake [7])).dropLast,
        r.2.2.length = 16384) ∧
      (parseRecords (ContentType.tls_plaintext .handshake [7])).head?.map (fun r => r.2.1) =
        some (if ContentType.handshake = ContentType.handshake then [3, 1] else [3, 3]) ∧
      (∀ r ∈ (parseRecords (ContentType.tls_plaintext .handshake [7])).tail,
        r.2.1 = [3, 3]) ∧
      ContentType.tls_plaintext .handshake [7] =
        ((parseRecords (ContentType.tls_plaintext .handshake [7])).map
          (fun r => [r.1] ++ r.2.1 ++ pack_int 2 r.2.2)).flatten) :=
  ⟨by decide, tls_plaintext_fragmentation .handshake [7] (by decide)⟩

end TLS13
